import Mathlib

set_option maxHeartbeats 1000000

namespace AiGovernance

/-- Claim value occurring in a decoded token payload. JSON strings, integers
and string arrays cover every claim the authentication gate inspects. -/
inductive ClaimVal where
  | str (s : String)
  | num (n : Int)
  | arr (l : List String)
  deriving DecidableEq, Repr

/-- A principal is the decoded claim mapping returned by the gate
(the payload dict in the source). -/
abbrev Principal := List (String × ClaimVal)

/-- Embedding of fastapi.HTTPException as raised by security.py: every raise
site passes a status code, a detail string and the WWW-Authenticate header. -/
structure HTTPException where
  status_code : Nat
  detail : String
  wwwAuthenticate : Option String
  deriving DecidableEq, Repr

/-- Embedding of the configuration surface read by security.py
(app.core.config.settings). -/
structure Settings where
  AUTH0_DOMAIN : String
  AUTH0_AUDIENCE : String
  AUTH0_ALGORITHMS : List String
  API_KEY_SECRET : String
  deriving DecidableEq, Repr

/-- One entry of the fetched JWKS keys array. Each field is optional because
the Python code accesses the corresponding dict entry and a missing entry
raises KeyError. -/
structure RawKey where
  kty : Option String
  kid : Option String
  use : Option String
  n : Option String
  e : Option String
  deriving DecidableEq, Repr

/-- The rsa_key dict built by verify_jwt from a matched JWKS entry. -/
structure SigningKey where
  kty : String
  kid : String
  use : String
  n : String
  e : String
  deriving DecidableEq, Repr

/-- Outcome of the requests.get of the JWKS endpoint together with the
jwks["keys"] access: either the keys array, or any network / JSON-parse /
missing-member failure (all of which raise a non-JOSE exception). -/
inductive FetchResult where
  | ok (keys : List RawKey)
  | fetchError
  deriving DecidableEq, Repr

/-- Outcome of jwt.get_unverified_header on the raw token string: a JOSEError
for a structurally malformed token (carrying the exception message), or the
parsed header, which may or may not contain a kid entry. -/
inductive HeaderParse where
  | malformed (msg : String)
  | parsed (kid : Option String)
  deriving DecidableEq, Repr

/-- Abstraction of a presented bearer token: the header-parse outcome, the
algorithm named in its header, the public components of the key that actually
signed it, and its claims (exp, aud, iss plus the full payload mapping). -/
structure Token where
  header : HeaderParse
  alg : String
  signerN : String
  signerE : String
  exp : Int
  aud : List String
  iss : String
  payload : Principal
  deriving DecidableEq, Repr

/-- Error raised while scanning the JWKS entries: a KeyError from a missing
dict entry (key["kid"] on any scanned entry, or kty / use / n / e on the
matched entry). -/
inductive ScanErr where
  | keyError
  deriving DecidableEq, Repr

/-- The for-loop of verify_jwt over jwks["keys"]: linear scan comparing each
kid of each entry with the kid of the token header, building the rsa_key dict from the
first match and stopping (break). Accessing a missing dict entry raises
KeyError. No match leaves rsa_key empty (none). -/
def buildRsaKey (hkid : String) : List RawKey → Except ScanErr (Option SigningKey)
  | [] => .ok none
  | k :: ks =>
    match k.kid with
    | none => .error .keyError
    | some kk =>
      if kk = hkid then
        match k.kty, k.use, k.n, k.e with
        | some kty, some u, some n1, some e1 => .ok (some ⟨kty, kk, u, n1, e1⟩)
        | _, _, _, _ => .error .keyError
      else buildRsaKey hkid ks

/-- Failure raised by jose jwt.decode: ExpiredSignatureError, JWTClaimsError,
or any other verification failure (signature mismatch, disallowed algorithm),
in the order jose checks them: signature and algorithm first, then exp, then
audience and issuer. -/
inductive DecodeErr where
  | sigOrAlg
  | expired
  | claims
  deriving DecidableEq, Repr

/-- Model of jose jwt.decode(token, rsa_key, algorithms, audience, issuer):
the signature verifies exactly when the supplied key has the public
components of the actual signer and the algorithm of the token is allow-listed;
exp must not be in the past; the configured audience must be among the
audiences of the token and the issuer must match exactly. -/
def jwtDecode (tok : Token) (rsa : SigningKey) (algorithms : List String)
    (audience : String) (issuer : String) (now : Int) : Except DecodeErr Principal :=
  if tok.alg ∈ algorithms ∧ rsa.n = tok.signerN ∧ rsa.e = tok.signerE then
    if tok.exp < now then .error .expired
    else if audience ∈ tok.aud ∧ tok.iss = issuer then .ok tok.payload
    else .error .claims
  else .error .sigOrAlg

/-- A Python exception escaping the body of the outer try block of verify_jwt:
a JOSEError (only from jwt.get_unverified_header; decode errors are caught
by the inner handlers first), an HTTPException raised by one of the inner
raise statements, or any other exception (network failure, KeyError). -/
inductive PyExc where
  | jose (msg : String)
  | http (e : HTTPException)
  | other
  deriving DecidableEq, Repr

def missingCredExc : HTTPException :=
  ⟨401, "Missing or invalid authentication credentials", some "Bearer"⟩

def expiredExc : HTTPException :=
  ⟨401, "Token is expired", some "Bearer"⟩

def claimsExc : HTTPException :=
  ⟨401, "Incorrect claims, check audience and issuer.", some "Bearer"⟩

def unparseableExc : HTTPException :=
  ⟨401, "Unable to parse authentication token", some "Bearer"⟩

def keyNotFoundExc : HTTPException :=
  ⟨401, "Unable to find appropriate key", some "Bearer"⟩

def couldNotValidateExc (msg : String) : HTTPException :=
  ⟨401, "Could not validate credentials: " ++ msg, some "Bearer"⟩

def authFailedExc : HTTPException :=
  ⟨401, "Authentication failed", some "Bearer"⟩

/-- Body of the outer try block of verify_jwt, returning the payload or the
exception that escapes the block. The JWKS fetch happens first; a fetch
failure is a plain exception. Then the header is parsed (JOSEError if
malformed; KeyError if it lacks kid). Then the key scan runs. If a key was
found, jwt.decode runs inside the inner try whose handlers convert each
decode failure into an HTTPException and raise it; that raise, like the
key-not-found raise after the if-block, happens inside the outer try. -/
def verifyJwtBody (settings : Settings) (fetch : FetchResult) (tok : Token)
    (now : Int) : Except PyExc Principal :=
  match fetch with
  | .fetchError => .error .other
  | .ok keys =>
    match tok.header with
    | .malformed msg => .error (.jose msg)
    | .parsed none => .error .other
    | .parsed (some hkid) =>
      match buildRsaKey hkid keys with
      | .error .keyError => .error .other
      | .ok none => .error (.http keyNotFoundExc)
      | .ok (some rsa) =>
        match jwtDecode tok rsa settings.AUTH0_ALGORITHMS settings.AUTH0_AUDIENCE
            ("https://" ++ settings.AUTH0_DOMAIN ++ "/") now with
        | .ok payload => .ok payload
        | .error .expired => .error (.http expiredExc)
        | .error .claims => .error (.http claimsExc)
        | .error .sigOrAlg => .error (.http unparseableExc)

/-- verify_jwt: runs the body and applies the outer except clauses. A
JOSEError is wrapped into the could-not-validate HTTPException. Every other
exception - including the HTTPExceptions raised inside the try block, since
fastapi.HTTPException subclasses Exception and is not a JOSEError - is caught
by the final except Exception clause, which raises the generic
"Authentication failed" HTTPException instead. -/
def verify_jwt (settings : Settings) (fetch : FetchResult) (tok : Token)
    (now : Int) : Except HTTPException Principal :=
  match verifyJwtBody settings fetch tok now with
  | .ok payload => .ok payload
  | .error (.jose msg) => .error (couldNotValidateExc msg)
  | .error (.http _) => .error authFailedExc
  | .error .other => .error authFailedExc

/-- The synthetic principal returned for a matching API key. -/
def syntheticPrincipal : Principal :=
  [("sub", .str "internal_extension"), ("scope", .str "admin")]

/-- verify_api_key, the gate: if a bearer token is present (HTTPBearer with
auto_error False yields None only when no Bearer authorization is present),
verify_jwt decides alone; an HTTPException from it is re-raised immediately
and the generic except-Exception fallthrough is unreachable because
verify_jwt only ever raises HTTPException. Otherwise, if the X-API-Key
header is truthy (present and nonempty, matching Python truthiness of the
header string) and equals the configured secret, the synthetic principal is
returned; every remaining path reaches the final generic 401 raise. -/
def verify_api_key (settings : Settings) (fetch : FetchResult) (now : Int)
    (token : Option Token) (api_key_header : Option String) :
    Except HTTPException Principal :=
  match token with
  | some tok =>
    match verify_jwt settings fetch tok now with
    | .ok payload => .ok payload
    | .error e => .error e
  | none =>
    match api_key_header with
    | some k =>
      if k ≠ "" then
        if k = settings.API_KEY_SECRET then .ok syntheticPrincipal
        else .error missingCredExc
      else .error missingCredExc
    | none => .error missingCredExc

/-- The AlertCreate schema fields read by the create_alert handler. -/
structure AlertCreate where
  user_email : Option String
  violation_type : String
  details : String
  deriving DecidableEq, Repr

/-- Response dict of the create_alert handler. -/
structure AlertResponse where
  status : String
  message : String
  deriving DecidableEq, Repr

/-- create_alert handler body (after the auth dependency): if the submitted
user_email is falsy (absent or empty string) it is overwritten with the
hardcoded address, then the fixed success response is returned. The result
pairs the alert as processed with the response. -/
def create_alert (alert : AlertCreate) : AlertCreate × AlertResponse :=
  let alert1 :=
    if alert.user_email = none ∨ alert.user_email = some "" then
      { alert with user_email := some "joshini.mn@gmail.com" }
    else alert
  (alert1, ⟨"success", "Alert logged"⟩)

/-- Concrete configuration used in evaluations, matching the test fixtures
and the spec scenarios. -/
def cfg0 : Settings :=
  ⟨"tenant.example", "my-api", ["RS256"], "dev-secret-key-change-in-production"⟩

/-- A complete JWKS entry with kid "abc". -/
def key_abc : RawKey := ⟨some "RSA", some "abc", some "sig", some "mA", some "eA"⟩

/-- A second JWKS entry with the same kid "abc" but different key material. -/
def key_abc2 : RawKey := ⟨some "RSA", some "abc", some "sig", some "mB", some "eB"⟩

/-- A JWKS entry with kid "abc" but missing the kty member. -/
def key_bad : RawKey := ⟨none, some "abc", none, none, none⟩

/-- A fully valid token: kid "abc", signed by the components of key_abc,
allow-listed algorithm, expiry in the future, matching audience and issuer. -/
def tok_valid : Token :=
  ⟨.parsed (some "abc"), "RS256", "mA", "eA", 3600, ["my-api"],
   "https://tenant.example/", [("sub", .str "alice"), ("scope", .str "read")]⟩

/-- Same token but with expiry one hour in the past. -/
def tok_expired : Token :=
  ⟨.parsed (some "abc"), "RS256", "mA", "eA", -3600, ["my-api"],
   "https://tenant.example/", [("sub", .str "alice"), ("scope", .str "read")]⟩

/-- Same token but with kid "zzz", absent from the fetched key set. -/
def tok_zzz : Token :=
  ⟨.parsed (some "zzz"), "RS256", "mA", "eA", 3600, ["my-api"],
   "https://tenant.example/", [("sub", .str "alice"), ("scope", .str "read")]⟩

/-- A structurally malformed token string. -/
def tok_malformed : Token :=
  ⟨.malformed "Error decoding token headers.", "RS256", "mA", "eA", 3600,
   ["my-api"], "https://tenant.example/", []⟩

/-- Every error returned by verify_jwt is one of its two surfaced
HTTPExceptions, both 401 with the Bearer challenge header. -/
theorem verify_jwt_error_is_401 (settings : Settings) (fetch : FetchResult)
    (tok : Token) (now : Int) (e : HTTPException)
    (h : verify_jwt settings fetch tok now = .error e) :
    e.status_code = 401 ∧ e.wwwAuthenticate = some "Bearer" := by
  unfold verify_jwt at h
  cases hb : verifyJwtBody settings fetch tok now with
  | ok p => rw [hb] at h; cases h
  | error pe =>
    rw [hb] at h
    cases pe with
    | jose msg =>
      simp only [Except.error.injEq] at h
      subst h; exact ⟨rfl, rfl⟩
    | http e0 =>
      simp only [Except.error.injEq] at h
      subst h; exact ⟨rfl, rfl⟩
    | other =>
      simp only [Except.error.injEq] at h
      subst h; exact ⟨rfl, rfl⟩

/-- C1: when a request carries a bearer token, the gate takes only the
token-verification path: a verify_jwt failure is surfaced unchanged as the
rejection of the gate, and the result never depends on the X-API-Key header,
valid or not. -/
theorem bearer_commits_token_path (settings : Settings) (fetch : FetchResult)
    (now : Int) (tok : Token) (apiKey apiKey2 : Option String)
    (e : HTTPException)
    (h : verify_jwt settings fetch tok now = .error e) :
    verify_api_key settings fetch now (some tok) apiKey = .error e ∧
    verify_api_key settings fetch now (some tok) apiKey =
      verify_api_key settings fetch now (some tok) apiKey2 := by
  constructor
  · simp [verify_api_key, h]
  · simp [verify_api_key]

/-- Witness for C1: a fetch failure rejects the request even though the
correct API key accompanies the token, and the outcome equals the outcome
with no API key at all. -/
theorem bearer_commits_token_path_witness :
    verify_api_key cfg0 .fetchError 0 (some tok_valid)
      (some "dev-secret-key-change-in-production") = .error authFailedExc ∧
    verify_api_key cfg0 .fetchError 0 (some tok_valid)
      (some "dev-secret-key-change-in-production") =
      verify_api_key cfg0 .fetchError 0 (some tok_valid) none :=
  bearer_commits_token_path cfg0 .fetchError 0 tok_valid
    (some "dev-secret-key-change-in-production") none authFailedExc rfl

/-- C2: a well-formed, currently valid token - fetch succeeded, header parsed
with a kid, the scan finds a key whose public components match the actual
signer, the algorithm is allow-listed, expiry is not in the past, the
configured audience is among the audiences of the token and the issuer
matches - authenticates with a principal equal to the claim set of the
token. -/
theorem valid_token_authenticates (settings : Settings) (keys : List RawKey)
    (now : Int) (tok : Token) (apiKey : Option String) (hkid : String)
    (rsa : SigningKey)
    (hh : tok.header = .parsed (some hkid))
    (hscan : buildRsaKey hkid keys = .ok (some rsa))
    (halg : tok.alg ∈ settings.AUTH0_ALGORITHMS)
    (hn : rsa.n = tok.signerN) (he : rsa.e = tok.signerE)
    (hexp : ¬ tok.exp < now)
    (haud : settings.AUTH0_AUDIENCE ∈ tok.aud)
    (hiss : tok.iss = "https://" ++ settings.AUTH0_DOMAIN ++ "/") :
    verify_api_key settings (.ok keys) now (some tok) apiKey =
      .ok tok.payload := by
  simp [verify_api_key, verify_jwt, verifyJwtBody, hh, hscan, jwtDecode,
    halg, hn, he, hexp, haud, hiss]

/-- Witness for C2: the concrete valid-token scenario authenticates and the
principal is exactly the payload of the token. -/
theorem valid_token_authenticates_witness :
    verify_api_key cfg0 (.ok [key_abc]) 0 (some tok_valid) none =
      .ok [("sub", .str "alice"), ("scope", .str "read")] :=
  valid_token_authenticates cfg0 [key_abc] 0 tok_valid none "abc"
    ⟨"RSA", "abc", "sig", "mA", "eA"⟩ rfl rfl (by simp [cfg0, tok_valid])
    rfl rfl (by simp [tok_valid]) (by simp [cfg0, tok_valid])
    (by simp [cfg0, tok_valid])

/-- C3: on the expired-token scenario the inner handler does classify the
failure as the expired-token HTTPException, but that exception is raised
inside the outer try block and caught by its except-Exception clause, so the
gate surfaces the generic "Authentication failed" detail instead of the
expired-token one. -/
theorem expired_token_generic_detail :
    verifyJwtBody cfg0 (.ok [key_abc]) tok_expired 0 =
      .error (.http expiredExc) ∧
    verify_api_key cfg0 (.ok [key_abc]) 0 (some tok_expired) none =
      .error authFailedExc ∧
    authFailedExc ≠ expiredExc :=
  ⟨rfl, rfl, by decide⟩

/-- C4 counterexample: the expired-token failure and the key-not-found
failure are distinct kinds inside the try block, yet the gate surfaces the
identical rejection for both; likewise a wrong API key and a missing
credential surface identical rejections. Distinct detail text per kind fails
on the code. -/
theorem distinct_details_refuted :
    verifyJwtBody cfg0 (.ok [key_abc]) tok_expired 0 =
      .error (.http expiredExc) ∧
    verifyJwtBody cfg0 (.ok [key_abc]) tok_zzz 0 =
      .error (.http keyNotFoundExc) ∧
    expiredExc ≠ keyNotFoundExc ∧
    verify_api_key cfg0 (.ok [key_abc]) 0 (some tok_expired) none =
      verify_api_key cfg0 (.ok [key_abc]) 0 (some tok_zzz) none ∧
    verify_api_key cfg0 .fetchError 0 none (some "wrong-key") =
      verify_api_key cfg0 .fetchError 0 none none :=
  ⟨rfl, rfl, by decide, rfl, rfl⟩

/-- C4 amended: every outcome of the gate is either an authenticated
principal or a rejection with status 401 carrying the WWW-Authenticate
Bearer challenge header; the detail texts are not all distinct per failure
kind. -/
theorem all_failures_uniform_401 (settings : Settings) (fetch : FetchResult)
    (now : Int) (token : Option Token) (apiKey : Option String) :
    (∃ p, verify_api_key settings fetch now token apiKey = .ok p) ∨
    ∃ e, verify_api_key settings fetch now token apiKey = .error e ∧
      e.status_code = 401 ∧ e.wwwAuthenticate = some "Bearer" := by
  cases token with
  | some tok =>
    cases h : verify_jwt settings fetch tok now with
    | ok p => exact .inl ⟨p, by simp [verify_api_key, h]⟩
    | error e =>
      exact .inr ⟨e, by simp [verify_api_key, h],
        verify_jwt_error_is_401 settings fetch tok now e h⟩
  | none =>
    cases apiKey with
    | none => exact .inr ⟨missingCredExc, rfl, rfl, rfl⟩
    | some k =>
      by_cases hk : k = ""
      · subst hk
        exact .inr ⟨missingCredExc, by simp [verify_api_key], rfl, rfl⟩
      · by_cases hm : k = settings.API_KEY_SECRET
        · subst hm
          exact .inl ⟨syntheticPrincipal, by simp [verify_api_key, hk]⟩
        · exact .inr ⟨missingCredExc, by simp [verify_api_key, hk, hm],
            rfl, rfl⟩

/-- C5 counterexample: an incorrect API key with no bearer token yields
exactly the generic missing-credentials rejection - the very same failure
value produced when no credential is presented at all, so the rejection is
not a distinct InvalidApiKey kind. -/
theorem invalid_key_same_as_missing :
    verify_api_key cfg0 .fetchError 0 none (some "wrong-key") =
      .error missingCredExc ∧
    verify_api_key cfg0 .fetchError 0 none none = .error missingCredExc :=
  ⟨rfl, rfl⟩

/-- C5 amended: an X-API-Key value different from the configured secret,
with no bearer token, is rejected with the generic 401
missing-or-invalid-credentials failure (identical to the no-credential
rejection). -/
theorem wrong_api_key_rejected_generic (settings : Settings)
    (fetch : FetchResult) (now : Int) (k : String)
    (h : k ≠ settings.API_KEY_SECRET) :
    verify_api_key settings fetch now none (some k) =
      .error missingCredExc := by
  by_cases hk : k = ""
  · subst hk; simp [verify_api_key]
  · simp [verify_api_key, hk, h]

/-- Witness for the amended C5. -/
theorem wrong_api_key_rejected_generic_witness :
    verify_api_key cfg0 .fetchError 0 none (some "bad-key") =
      .error missingCredExc :=
  wrong_api_key_rejected_generic cfg0 .fetchError 0 "bad-key" (by decide)

/-- C6: a request presenting the configured (nonempty) secret in X-API-Key
and no bearer token authenticates with exactly the synthetic principal
mapping sub to internal_extension and scope to admin. -/
theorem correct_api_key_synthetic_principal (settings : Settings)
    (fetch : FetchResult) (now : Int)
    (h : settings.API_KEY_SECRET ≠ "") :
    verify_api_key settings fetch now none (some settings.API_KEY_SECRET) =
      .ok syntheticPrincipal ∧
    syntheticPrincipal =
      [("sub", .str "internal_extension"), ("scope", .str "admin")] :=
  ⟨by simp [verify_api_key, h], rfl⟩

/-- Witness for C6 at the concrete configuration. -/
theorem correct_api_key_synthetic_principal_witness :
    verify_api_key cfg0 .fetchError 0 none
      (some cfg0.API_KEY_SECRET) = .ok syntheticPrincipal ∧
    syntheticPrincipal =
      [("sub", .str "internal_extension"), ("scope", .str "admin")] :=
  correct_api_key_synthetic_principal cfg0 .fetchError 0 (by decide)

/-- C7: the scan uses the earliest key whose kid matches (shown both on a
concrete duplicate-kid set, where the components of the first entry win, and
in general), and a token whose kid is absent from the set produces the
key-not-found HTTPException inside the try block - but the gate surfaces the
generic "Authentication failed" detail because that raise is caught by the
enclosing except-Exception clause. -/
theorem key_not_found_generic_detail :
    buildRsaKey "abc" [key_abc, key_abc2] =
      .ok (some ⟨"RSA", "abc", "sig", "mA", "eA"⟩) ∧
    (∀ (hkid kty u n1 e1 : String) (ks : List RawKey),
      buildRsaKey hkid (⟨some kty, some hkid, some u, some n1, some e1⟩ :: ks)
        = .ok (some ⟨kty, hkid, u, n1, e1⟩)) ∧
    verifyJwtBody cfg0 (.ok [key_abc]) tok_zzz 0 =
      .error (.http keyNotFoundExc) ∧
    verify_api_key cfg0 (.ok [key_abc]) 0 (some tok_zzz) none =
      .error authFailedExc ∧
    authFailedExc ≠ keyNotFoundExc := by
  refine ⟨rfl, ?_, rfl, rfl, by decide⟩
  intro hkid kty u n1 e1 ks
  simp [buildRsaKey]

/-- C8: internal failures are absorbed into the taxonomy. A fetch failure, a
matched key with missing material, and a header without a kid all surface
the generic 401 "Authentication failed"; a malformed token surfaces the 401
could-not-validate detail. No input escapes as anything but an
HTTPException-shaped rejection or a principal. -/
theorem internal_errors_mapped (settings : Settings) (keys : List RawKey)
    (now : Int) (tok : Token) (apiKey : Option String) :
    verify_api_key settings .fetchError now (some tok) apiKey =
      .error authFailedExc ∧
    (∀ hkid, tok.header = .parsed (some hkid) →
      buildRsaKey hkid keys = .error .keyError →
      verify_api_key settings (.ok keys) now (some tok) apiKey =
        .error authFailedExc) ∧
    (∀ msg, tok.header = .malformed msg →
      verify_api_key settings (.ok keys) now (some tok) apiKey =
        .error (couldNotValidateExc msg)) ∧
    (tok.header = .parsed none →
      verify_api_key settings (.ok keys) now (some tok) apiKey =
        .error authFailedExc) := by
  refine ⟨by simp [verify_api_key, verify_jwt, verifyJwtBody], ?_, ?_, ?_⟩
  · intro hkid hh hscan
    simp [verify_api_key, verify_jwt, verifyJwtBody, hh, hscan]
  · intro msg hh
    simp [verify_api_key, verify_jwt, verifyJwtBody, hh]
  · intro hh
    simp [verify_api_key, verify_jwt, verifyJwtBody, hh]

/-- Witness for C8: concrete fetch failure, concrete missing key material,
and a concrete malformed token. -/
theorem internal_errors_mapped_witness :
    verify_api_key cfg0 .fetchError 0 (some tok_valid) none =
      .error authFailedExc ∧
    verify_api_key cfg0 (.ok [key_bad]) 0 (some tok_valid) none =
      .error authFailedExc ∧
    verify_api_key cfg0 (.ok [key_abc]) 0 (some tok_malformed) none =
      .error (couldNotValidateExc "Error decoding token headers.") :=
  ⟨(internal_errors_mapped cfg0 [] 0 tok_valid none).1,
   (internal_errors_mapped cfg0 [key_bad] 0 tok_valid none).2.1 "abc" rfl rfl,
   (internal_errors_mapped cfg0 [key_abc] 0 tok_malformed none).2.2.1
     "Error decoding token headers." rfl⟩

/-- C9: an empty X-API-Key value is falsy in the Python truthiness test, so
with no bearer token the gate reaches the generic missing-credentials
rejection for every configuration - including one whose configured secret is
itself the empty string, where the two empty strings are never compared. -/
theorem empty_api_key_missing_credentials (settings : Settings)
    (fetch : FetchResult) (now : Int) :
    verify_api_key settings fetch now none (some "") =
      .error missingCredExc ∧
    verify_api_key ⟨"tenant.example", "my-api", ["RS256"], ""⟩ fetch now none
      (some "") = .error missingCredExc :=
  ⟨by simp [verify_api_key], by simp [verify_api_key]⟩

/-- C10: the create_alert handler replaces an absent or empty user_email
with the hardcoded address, leaves a nonempty user_email unchanged, and in
all cases returns the fixed success response. -/
theorem create_alert_email_default (alert : AlertCreate) :
    ((alert.user_email = none ∨ alert.user_email = some "") →
      (create_alert alert).1.user_email = some "joshini.mn@gmail.com") ∧
    (∀ s, alert.user_email = some s → s ≠ "" →
      (create_alert alert).1 = alert) ∧
    (create_alert alert).2 = ⟨"success", "Alert logged"⟩ := by
  refine ⟨?_, ?_, rfl⟩
  · intro h
    rcases h with h | h <;> simp [create_alert, h]
  · intro s hs hne
    simp [create_alert, hs, hne]

/-- Witness for C10 on concrete alerts. -/
theorem create_alert_email_default_witness :
    (create_alert ⟨none, "pii", "ssn pasted"⟩).1.user_email =
      some "joshini.mn@gmail.com" ∧
    (create_alert ⟨some "u@example.com", "pii", "ssn pasted"⟩).1 =
      ⟨some "u@example.com", "pii", "ssn pasted"⟩ ∧
    (create_alert ⟨none, "pii", "ssn pasted"⟩).2 =
      ⟨"success", "Alert logged"⟩ :=
  ⟨(create_alert_email_default ⟨none, "pii", "ssn pasted"⟩).1 (Or.inl rfl),
   (create_alert_email_default ⟨some "u@example.com", "pii", "ssn pasted"⟩).2.1
     "u@example.com" rfl (by decide),
   (create_alert_email_default ⟨none, "pii", "ssn pasted"⟩).2.2⟩

end AiGovernance
